import Mathlib

/-!
Shallow embedding of the animated-background visual-effect component of the
pymo.ir repository (the module in src/unnamed/part_003, with the
near-duplicate src/apps/dev-dimension/src/lib/three.lib.ts).

The module keeps a bounded FIFO pool of decorative meshes (shapesInAct),
churned once per ACTION_INTERVAL seconds of clock time from inside the
animation loop, plus a per-element WeakMap registry holding the rendering
context, resize handler and last frame timestamp.

Modelling conventions:
- Meshes are identified by their creation index.  The randomized geometry,
  vertex colors and initial rotation produced by shapeGen are abstracted
  into the identity of the mesh (the claims under study concern ordering,
  bounds and resource disposal, not the random values).  Each mesh owns a
  fresh geometry (geomId equals the creation index) and references the one
  module-level sharedShapeMaterial (matId, always sharedMaterialId).
- dispose() calls are recorded in disposal logs (disposedGeoms,
  disposedMats).  The evicted meshes have no texture map (MeshPhongMaterial
  is built without a map), so the map-dispose branch never fires and is not
  logged.
- Wall-clock time and requestAnimationFrame timestamps are rationals.
- The DOM element is a natural-number key; the WeakMap registry is an
  association list; element.isConnected is membership in a connected list.
-/

/-- CONFIG.MAX_SHAPES from part_003. -/
def MAX_SHAPES : Nat := 20

/-- CONFIG.ACTION_INTERVAL from part_003, in seconds. -/
def ACTION_INTERVAL : ℚ := 1.0

/-- Identity of the module-level sharedShapeMaterial, created once and passed
to every mesh constructed by handleShapeManagement. -/
def sharedMaterialId : Nat := 0

/-- A pooled decorative mesh: its creation index, the id of the geometry it
owns (fresh per mesh, from shapeGen) and the id of the material it
references (the shared default for every mesh the code creates). -/
structure Mesh where
  id : Nat
  geomId : Nat
  matId : Nat
deriving DecidableEq

/-- The mesh built by new THREE.Mesh(shapeGen(), sharedShapeMaterial) for the
n-th shape ever created. -/
def mkShape (n : Nat) : Mesh :=
  { id := n, geomId := n, matId := sharedMaterialId }

/-- The module-level churn state: the shapesInAct array, the counter naming
the next shape to be created, and logs of every geometry/material dispose()
call performed by eviction. -/
structure PoolState where
  pool : List Mesh
  nextId : Nat
  disposedGeoms : List Nat
  disposedMats : List Nat
deriving DecidableEq

/-- Initial module state: shapesInAct starts as the empty array. -/
def initPool : PoolState :=
  { pool := [], nextId := 0, disposedGeoms := [], disposedMats := [] }

/-- handleShapeManagement (part_003 lines 211-235).  Takes the current churn
state and the children list of the meshGroup it was handed.  If the pool is
below capacity it appends one new mesh to shapesInAct and adds it to the
group; otherwise it shifts the pool head, disposes its geometry, disposes
its material (after the texture-map check, vacuous here) and removes it from
the group.  The empty-pool fallback in the else branch is unreachable for
any positive capacity. -/
def handleShapeManagement (cap : Nat) (p : PoolState) (group : List Nat) :
    PoolState × List Nat :=
  if p.pool.length < cap then
    ({ p with pool := p.pool ++ [mkShape p.nextId], nextId := p.nextId + 1 },
     group ++ [p.nextId])
  else
    match p.pool with
    | [] => (p, group)
    | delMesh :: rest =>
      ({ p with pool := rest,
                disposedGeoms := p.disposedGeoms ++ [delMesh.geomId],
                disposedMats := p.disposedMats ++ [delMesh.matId] },
       group.erase delMesh.id)

/-- Iterate n churn actions. -/
def churnIter (cap : Nat) : Nat → PoolState × List Nat → PoolState × List Nat
  | 0, x => x
  | n + 1, x => churnIter cap n (handleShapeManagement cap x.1 x.2)

/-- Start of a run: empty shapesInAct, empty meshGroup. -/
def initChurn : PoolState × List Nat := (initPool, [])

/-- The pool ids form a consecutive block of creation indices, oldest first,
and the allocation counter sits just past the youngest.  This is the shape
invariant from which FIFO order follows: the head always carries the least
creation index among live shapes. -/
def ConsecPool (p : PoolState) : Prop :=
  ∃ a, p.pool.map Mesh.id = List.range' a p.pool.length ∧
    p.nextId = a + p.pool.length

lemma handleShapeManagement_len_le (cap : Nat) (p : PoolState) (g : List Nat)
    (h : p.pool.length ≤ cap) :
    (handleShapeManagement cap p g).1.pool.length ≤ cap := by
  unfold handleShapeManagement
  by_cases hlt : p.pool.length < cap
  · rw [if_pos hlt]
    simp only [List.length_append, List.length_cons, List.length_nil]
    omega
  · rw [if_neg hlt]
    cases hp : p.pool with
    | nil => exact h
    | cons d rest =>
      have hlen := congrArg List.length hp
      simp only [List.length_cons] at hlen
      show rest.length ≤ cap
      omega

lemma churnIter_len (cap n : Nat) (x : PoolState × List Nat)
    (h : x.1.pool.length ≤ cap) :
    (churnIter cap n x).1.pool.length ≤ cap := by
  induction n generalizing x with
  | zero => exact h
  | succ n ih =>
    exact ih _ (handleShapeManagement_len_le cap x.1 x.2 h)

/-- C1: starting from the empty pool, after every churn action performed by
handleShapeManagement the pool size is at most the configured capacity
CONFIG.MAX_SHAPES = 20. -/
theorem pool_size_bounded :
    MAX_SHAPES = 20 ∧
      ∀ n : Nat, (churnIter MAX_SHAPES n initChurn).1.pool.length ≤ MAX_SHAPES :=
  ⟨rfl, fun n => churnIter_len MAX_SHAPES n initChurn (by simp [initChurn, initPool])⟩

lemma handleShapeManagement_pool_eq (cap : Nat) (p : PoolState) (g : List Nat) :
    (handleShapeManagement cap p g).1.pool =
      if p.pool.length < cap then p.pool ++ [mkShape p.nextId]
      else p.pool.tail := by
  unfold handleShapeManagement
  by_cases hlt : p.pool.length < cap
  · rw [if_pos hlt, if_pos hlt]
  · rw [if_neg hlt, if_neg hlt]
    cases hp : p.pool with
    | nil => exact hp
    | cons d rest => rfl

lemma consecPool_step (cap : Nat) (p : PoolState) (g : List Nat)
    (h : ConsecPool p) : ConsecPool (handleShapeManagement cap p g).1 := by
  obtain ⟨a, hmap, hnext⟩ := h
  unfold handleShapeManagement
  by_cases hlt : p.pool.length < cap
  · rw [if_pos hlt]
    refine ⟨a, ?_, ?_⟩
    · show List.map Mesh.id (p.pool ++ [mkShape p.nextId]) =
        List.range' a (p.pool ++ [mkShape p.nextId]).length
      simp only [List.map_append, List.map_cons, List.map_nil,
        List.length_append, List.length_cons, List.length_nil]
      rw [List.range'_concat, ← hmap]
      simp [mkShape, hnext, Nat.add_comm]
    · show p.nextId + 1 = a + (p.pool ++ [mkShape p.nextId]).length
      simp only [List.length_append, List.length_cons, List.length_nil]
      omega
  · rw [if_neg hlt]
    cases hp : p.pool with
    | nil => exact ⟨a, hmap, hnext⟩
    | cons d rest =>
      have hlen := congrArg List.length hp
      simp only [List.length_cons] at hlen
      rw [hp] at hmap
      simp only [List.length_cons] at hmap
      rw [List.range'_succ, List.map_cons] at hmap
      refine ⟨a + 1, ?_, ?_⟩
      · show List.map Mesh.id rest = List.range' (a + 1) rest.length
        exact (List.cons.injEq _ _ _ _ ▸ hmap).2
      · show p.nextId = a + 1 + rest.length
        omega

lemma consecPool_iter (cap n : Nat) (x : PoolState × List Nat)
    (h : ConsecPool x.1) : ConsecPool (churnIter cap n x).1 := by
  induction n generalizing x with
  | zero => exact h
  | succ n ih => exact ih _ (consecPool_step cap x.1 x.2 h)

/-- C3: eviction is strictly FIFO.  Along any run from the empty pool:
the next churn appends the newly created shape at the tail when below
capacity and otherwise removes exactly the pool head; the live pool always
carries consecutive creation indices in creation order (so the head is the
then-oldest remaining shape); concretely, after 20 churns the pool holds
shapes 0..19 in order, and the 21st churn — the first one at capacity —
disposes shape 0, the first shape ever added. -/
theorem fifo_eviction :
    (∀ n : Nat,
      (handleShapeManagement MAX_SHAPES (churnIter MAX_SHAPES n initChurn).1
          (churnIter MAX_SHAPES n initChurn).2).1.pool =
        (if (churnIter MAX_SHAPES n initChurn).1.pool.length < MAX_SHAPES then
          (churnIter MAX_SHAPES n initChurn).1.pool ++
            [mkShape (churnIter MAX_SHAPES n initChurn).1.nextId]
        else (churnIter MAX_SHAPES n initChurn).1.pool.tail)) ∧
    (∀ n : Nat, ConsecPool (churnIter MAX_SHAPES n initChurn).1) ∧
    (churnIter MAX_SHAPES 20 initChurn).1.pool.map Mesh.id = List.range 20 ∧
    (churnIter MAX_SHAPES 21 initChurn).1.disposedGeoms = [0] := by
  refine ⟨?_, ?_, ?_, ?_⟩
  · intro n
    exact handleShapeManagement_pool_eq MAX_SHAPES _ _
  · intro n
    exact consecPool_iter MAX_SHAPES n initChurn ⟨0, by simp [initChurn, initPool], by simp [initChurn, initPool]⟩
  · decide
  · decide

/-- C4 counterexample: with capacity 3, after 5 churn actions from the empty
pool the pool does NOT hold the shapes created on churns 3, 4 and 5 (creation
indices 2, 3, 4): a shape 5 is never even created within five churns. -/
theorem capacity3_scenario_counterexample :
    ¬ ((churnIter 3 5 initChurn).1.pool.map Mesh.id = [2, 3, 4]) := by decide

/-- C4 amended: with capacity 3 from the empty pool, the first three churns
only append (no disposal yet after churn 3), the 4th churn evicts the shape
added on the 1st churn (index 0), the 5th churn appends a fourth shape, and
the pool after the 5th churn holds exactly the shapes of churns 2, 3 and 5
(creation indices 1, 2, 3) in that order; only four shapes are ever
created. -/
theorem capacity3_scenario_amended :
    (churnIter 3 3 initChurn).1.disposedGeoms = [] ∧
    (churnIter 3 4 initChurn).1.disposedGeoms = [0] ∧
    (churnIter 3 5 initChurn).1.pool.map Mesh.id = [1, 2, 3] ∧
    (churnIter 3 5 initChurn).1.nextId = 4 := by decide

/-- C5: every mesh the code creates references the one shared default
material, and the very first eviction (the 21st churn from the empty pool)
already calls dispose() on that shared material — the per-shape eviction
path disposes the material it shares with the pool default. -/
theorem shared_material_disposed_on_eviction :
    (∀ n : Nat, (mkShape n).matId = sharedMaterialId) ∧
    (churnIter MAX_SHAPES 21 initChurn).1.disposedMats = [sharedMaterialId] :=
  ⟨fun _ => rfl, by decide⟩

/-- State of the churn gate inside animate (part_003 lines 262-267): the
module-level lastActionTime together with the log of elapsed times at which
the churn action fired. -/
structure GateState where
  lastActionTime : ℚ
  actions : List ℚ
deriving DecidableEq

/-- One frame's pass through the gate at clock elapsed time e: the churn
action fires exactly when elapsedTime - lastActionTime >= ACTION_INTERVAL,
and on firing the code sets lastActionTime = elapsedTime (not lastActionTime
plus the interval). -/
def gateStep (s : GateState) (elapsedTime : ℚ) : GateState :=
  if ACTION_INTERVAL ≤ elapsedTime - s.lastActionTime then
    { lastActionTime := elapsedTime, actions := s.actions ++ [elapsedTime] }
  else s

/-- Run the gate over a sequence of per-frame elapsed times; the module
initializes lastActionTime to 0. -/
def gateRun (ts : List ℚ) : GateState :=
  ts.foldl gateStep { lastActionTime := 0, actions := [] }

/-- Gate invariant: fired actions are at least one interval apart, and the
most recent action (if any) is exactly the recorded lastActionTime. -/
def GateInv (s : GateState) : Prop :=
  List.Chain' (fun a b => ACTION_INTERVAL ≤ b - a) s.actions ∧
    ∀ x, s.actions.getLast? = some x → x = s.lastActionTime

lemma gateInv_step (s : GateState) (e : ℚ) (h : GateInv s) :
    GateInv (gateStep s e) := by
  obtain ⟨hchain, hlast⟩ := h
  unfold gateStep
  by_cases hf : ACTION_INTERVAL ≤ e - s.lastActionTime
  · rw [if_pos hf]
    constructor
    · show List.Chain' _ (s.actions ++ [e])
      rw [List.chain'_append]
      refine ⟨hchain, List.chain'_singleton e, ?_⟩
      intro x hx y hy
      simp only [List.head?_cons, Option.mem_def, Option.some.injEq] at hy
      rw [hlast x hx, ← hy]
      exact hf
    · intro x hx
      rw [List.getLast?_concat] at hx
      exact (Option.some.inj hx).symm
  · rw [if_neg hf]
    exact ⟨hchain, hlast⟩

lemma gateInv_foldl (ts : List ℚ) (s : GateState) (h : GateInv s) :
    GateInv (ts.foldl gateStep s) := by
  induction ts generalizing s with
  | nil => exact h
  | cons t ts ih => exact ih _ (gateInv_step s t h)

/-- C2: the churn action fires only when elapsedTime - lastActionTime has
reached ACTION_INTERVAL; on firing the code records lastActionTime =
elapsedTime itself; and over any monotone sequence of per-frame elapsed
times, any two consecutive fired actions are at least one interval of
elapsed clock time apart. -/
theorem churn_gate_spacing :
    (∀ (s : GateState) (e : ℚ), ACTION_INTERVAL ≤ e - s.lastActionTime →
      gateStep s e = { lastActionTime := e, actions := s.actions ++ [e] }) ∧
    (∀ (s : GateState) (e : ℚ), ¬ ACTION_INTERVAL ≤ e - s.lastActionTime →
      gateStep s e = s) ∧
    (∀ ts : List ℚ, List.Chain' (· ≤ ·) ts →
      List.Chain' (fun a b => ACTION_INTERVAL ≤ b - a) (gateRun ts).actions) :=
  ⟨fun s e hf => by unfold gateStep; rw [if_pos hf],
   fun s e hf => by unfold gateStep; rw [if_neg hf],
   fun ts _ =>
    (gateInv_foldl ts { lastActionTime := 0, actions := [] }
      ⟨List.chain'_nil, fun x hx => by simp at hx⟩).1⟩

/-- C2 witness: concrete firings one second apart. -/
theorem churn_gate_spacing_witness :
    gateStep { lastActionTime := 0, actions := [] } 3 =
      { lastActionTime := 3, actions := [3] } ∧
    gateStep { lastActionTime := 3, actions := [3] } (7 / 2) =
      { lastActionTime := 3, actions := [3] } ∧
    List.Chain' (fun a b => ACTION_INTERVAL ≤ b - a)
      (gateRun [1, 3 / 2, 5 / 2]).actions :=
  ⟨churn_gate_spacing.1 _ 3 (by norm_num [ACTION_INTERVAL]),
   churn_gate_spacing.2.1 _ (7 / 2) (by norm_num [ACTION_INTERVAL]),
   churn_gate_spacing.2.2 [1, 3 / 2, 5 / 2] (by norm_num)⟩

/-- updateMeshGroupRotation (part_003 lines 203-206): advance the group
rotation by amounts proportional to the frame delta in seconds. -/
def updateMeshGroupRotation (rotX rotY deltaTime : ℚ) : ℚ × ℚ :=
  (rotX + 0.2 * deltaTime * 3, rotY - 0.2 * deltaTime)

/-- Timestamp/rotation block at the top of animate (part_003 lines 246-256):
called without a timestamp it only records performance.now(); called with a
timestamp it defaults a missing previous timestamp to the current one,
advances the rotation by the elapsed delta in seconds, and records the
current timestamp. -/
def animateTimeBlock (timestamp : Option ℚ) (nowPerf : ℚ)
    (lastTimestamp : Option ℚ) (rotX rotY : ℚ) : Option ℚ × ℚ × ℚ :=
  match timestamp with
  | none => (some nowPerf, rotX, rotY)
  | some ts =>
    let last := match lastTimestamp with
      | none => ts
      | some l => l
    let deltaTime := (ts - last) / 1000
    let r := updateMeshGroupRotation rotX rotY deltaTime
    (some ts, r.1, r.2)

/-- C7: an invocation with no prior timestamp records the current time and
leaves the rotation unchanged (both with and without a timestamp argument);
every later invocation advances the rotation proportionally to the delta
between the current and previous timestamps. -/
theorem first_frame_no_rotation :
    ∀ nowPerf ts l rotX rotY : ℚ,
      animateTimeBlock none nowPerf none rotX rotY =
        (some nowPerf, rotX, rotY) ∧
      animateTimeBlock (some ts) nowPerf none rotX rotY =
        (some ts, rotX, rotY) ∧
      animateTimeBlock (some ts) nowPerf (some l) rotX rotY =
        (some ts, rotX + (3 / 5) * ((ts - l) / 1000),
          rotY - (1 / 5) * ((ts - l) / 1000)) := by
  intro nowPerf ts l rotX rotY
  refine ⟨rfl, ?_, ?_⟩
  · show (some ts, rotX + 0.2 * ((ts - ts) / 1000) * 3,
      rotY - 0.2 * ((ts - ts) / 1000)) = (some ts, rotX, rotY)
    norm_num
  · show (some ts, rotX + 0.2 * ((ts - l) / 1000) * 3,
      rotY - 0.2 * ((ts - l) / 1000)) =
        (some ts, rotX + (3 / 5) * ((ts - l) / 1000),
          rotY - (1 / 5) * ((ts - l) / 1000))
    norm_num
    ring

/-- Renderer state touched by handleResize: drawing-surface size and the
device pixel density actually applied. -/
structure RendererState where
  width : ℚ
  height : ℚ
  pixelDensity : ℚ
deriving DecidableEq

/-- Orthographic projection bounds of the camera. -/
structure CameraState where
  left : ℚ
  right : ℚ
  top : ℚ
  bottom : ℚ
deriving DecidableEq

/-- handleResize core (part_003 lines 278-298): resize the renderer to the
viewport, cap the pixel density at 2, and recompute the orthographic bounds
from aspect = newWidth / newHeight. -/
def handleResizeCore (newWidth newHeight devicePixelDensity : ℚ) :
    RendererState × CameraState :=
  let renderer : RendererState :=
    { width := newWidth, height := newHeight,
      pixelDensity := min devicePixelDensity 2 }
  let aspect := newWidth / newHeight
  let camera : CameraState :=
    if 1 ≤ aspect then
      { left := -aspect, right := aspect, top := 1, bottom := -1 }
    else
      { left := -1, right := 1, top := 1 / aspect, bottom := -(1 / aspect) }
  (renderer, camera)

/-- C9: handleResize sizes the surface to the viewport, caps the pixel
density at 2, and sets the projection bounds to plus/minus aspect and
plus/minus 1 in landscape, plus/minus 1 and plus/minus 1/aspect in
portrait. -/
theorem resize_projection_bounds :
    ∀ w h d : ℚ,
      (handleResizeCore w h d).1 =
        { width := w, height := h, pixelDensity := min d 2 } ∧
      (handleResizeCore w h d).1.pixelDensity ≤ 2 ∧
      (1 ≤ w / h →
        (handleResizeCore w h d).2 =
          { left := -(w / h), right := w / h, top := 1, bottom := -1 }) ∧
      (¬ 1 ≤ w / h →
        (handleResizeCore w h d).2 =
          { left := -1, right := 1, top := 1 / (w / h),
            bottom := -(1 / (w / h)) }) := by
  intro w h d
  refine ⟨rfl, min_le_right _ _, fun hc => ?_, fun hc => ?_⟩
  · show (if 1 ≤ w / h then _ else _) = _
    rw [if_pos hc]
  · show (if 1 ≤ w / h then _ else _) = _
    rw [if_neg hc]

/-- C9 witness: a landscape and a portrait viewport. -/
theorem resize_projection_bounds_witness :
    (handleResizeCore 2 1 3).2 =
      { left := -(2 / 1), right := 2 / 1, top := 1, bottom := -1 } ∧
    (handleResizeCore 1 2 3).2 =
      { left := -1, right := 1, top := 1 / (1 / 2), bottom := -(1 / (1 / 2)) } :=
  ⟨(resize_projection_bounds 2 1 3).2.2.1 (by norm_num),
   (resize_projection_bounds 1 2 3).2.2.2 (by norm_num)⟩

/-- Per-element scene context held in the registry: the meshGroup rotation
and its current children (mesh ids).  Canvas, renderer, camera and composer
are opaque to the claims under study and are not tracked. -/
structure SceneCtx where
  rotX : ℚ
  rotY : ℚ
  groupMeshIds : List Nat
deriving DecidableEq

/-- ElementInstanceData stored in the per-element WeakMap registry.  The
resize handler is tracked by presence; requestAnimationFrame handles are
nonzero, so the code's truthiness check on animationFrameId is presence. -/
structure ElementData where
  animationFrameId : Option Nat
  hasResizeHandler : Bool
  threeContext : Option SceneCtx
  lastTimestamp : Option ℚ
deriving DecidableEq

/-- The empty object used when no registry entry exists yet. -/
def emptyElementData : ElementData :=
  { animationFrameId := none, hasResizeHandler := false,
    threeContext := none, lastTimestamp := none }

/-- Whole-module mutable state: the module-level churn globals (shared by
every element), the clock start, the WeakMap registry, which elements are
attached to the document, the cancelled animation frames, and the next
frame handle requestAnimationFrame will hand out. -/
structure ModuleState where
  poolGlobals : PoolState
  lastActionTime : ℚ
  clockStartTime : ℚ
  registry : List (Nat × ElementData)
  connected : List Nat
  cancelledFrames : List Nat
  nextFrameId : Nat
deriving DecidableEq

/-- WeakMap.get. -/
def regGet (r : List (Nat × ElementData)) (e : Nat) : Option ElementData :=
  match r with
  | [] => none
  | p :: rest => if p.1 = e then some p.2 else regGet rest e

/-- WeakMap.set. -/
def regSet (r : List (Nat × ElementData)) (e : Nat) (d : ElementData) :
    List (Nat × ElementData) :=
  match r with
  | [] => [(e, d)]
  | p :: rest => if p.1 = e then (e, d) :: rest else p :: regSet rest e d

/-- WeakMap.delete. -/
def regDel (r : List (Nat × ElementData)) (e : Nat) :
    List (Nat × ElementData) :=
  match r with
  | [] => []
  | p :: rest => if p.1 = e then regDel rest e else p :: regDel rest e

lemma regGet_regSet_ne (r : List (Nat × ElementData)) (e b : Nat)
    (d : ElementData) (h : b ≠ e) :
    regGet (regSet r e d) b = regGet r b := by
  induction r with
  | nil => simp [regSet, regGet, Ne.symm h]
  | cons p rest ih =>
    by_cases hpe : p.1 = e
    · simp [regSet, regGet, hpe, Ne.symm h]
    · simp [regSet, regGet, hpe, ih]

lemma regGet_regDel_self (r : List (Nat × ElementData)) (e : Nat) :
    regGet (regDel r e) e = none := by
  induction r with
  | nil => rfl
  | cons p rest ih =>
    by_cases hpe : p.1 = e
    · simp [regDel, hpe, ih]
    · simp [regDel, regGet, hpe, ih]

/-- animate (part_003 lines 240-268) for one frame: bail out unless the
element is connected and registered with a context; run the timestamp block
and rotation advance; store the data back with a fresh re-armed frame
handle; then read the clock and, when the gate opens, record lastActionTime
and churn the module-level pool against this element's meshGroup.
composer.render touches nothing modelled. -/
def animateM (e : Nat) (timestamp : Option ℚ) (nowPerf elapsedTime : ℚ)
    (s : ModuleState) : ModuleState :=
  if e ∈ s.connected then
    match regGet s.registry e with
    | none => s
    | some data =>
      match data.threeContext with
      | none => s
      | some ctx =>
        let tb := animateTimeBlock timestamp nowPerf data.lastTimestamp
          ctx.rotX ctx.rotY
        let ctx1 : SceneCtx := { ctx with rotX := tb.2.1, rotY := tb.2.2 }
        let data1 : ElementData := { data with
          lastTimestamp := tb.1,
          threeContext := some ctx1,
          animationFrameId := some s.nextFrameId }
        let s1 : ModuleState := { s with
          registry := regSet s.registry e data1,
          nextFrameId := s.nextFrameId + 1 }
        if ACTION_INTERVAL ≤ elapsedTime - s1.lastActionTime then
          let r := handleShapeManagement MAX_SHAPES s1.poolGlobals
            ctx1.groupMeshIds
          { s1 with
            lastActionTime := elapsedTime,
            poolGlobals := r.1,
            registry := regSet s1.registry e
              { data1 with threeContext := some { ctx1 with groupMeshIds := r.2 } } }
        else s1
  else s

/-- The shape pool as observed while rendering on behalf of a given element:
shapesInAct is module-level, so the observation cannot depend on the
observing element. -/
def observedPoolSize (s : ModuleState) (_viewer : Nat) : Nat :=
  s.poolGlobals.pool.length

/-- A freshly created context: new meshGroup with zero rotation and no
children. -/
def freshSceneCtx : SceneCtx := { rotX := 0, rotY := 0, groupMeshIds := [] }

/-- Two host elements (0 and 1), both set up and attached, before any
frame. -/
def demoTwoElements : ModuleState :=
  { poolGlobals := initPool, lastActionTime := 0, clockStartTime := 0,
    registry :=
      [(0, { emptyElementData with threeContext := some freshSceneCtx }),
       (1, { emptyElementData with threeContext := some freshSceneCtx })],
    connected := [0, 1], cancelledFrames := [], nextFrameId := 1 }

/-- The state after one frame on element 0 whose gate fired at clock
elapsed time 1: one shape in the module pool, living in element 0's
meshGroup. -/
def demoAfterChurn : ModuleState :=
  { poolGlobals :=
      { pool := [mkShape 0], nextId := 1, disposedGeoms := [], disposedMats := [] },
    lastActionTime := 1, clockStartTime := 0,
    registry :=
      [(0, { animationFrameId := some 1, hasResizeHandler := false,
             threeContext := some { rotX := 0, rotY := 0, groupMeshIds := [0] },
             lastTimestamp := some 0 }),
       (1, { emptyElementData with threeContext := some freshSceneCtx })],
    connected := [0, 1], cancelledFrames := [], nextFrameId := 2 }

lemma animateM_demo :
    animateM 0 (some 0) 0 1 demoTwoElements = demoAfterChurn := by
  have hgate : ACTION_INTERVAL ≤ (1 : ℚ) := by norm_num [ACTION_INTERVAL]
  simp [animateM, demoTwoElements, demoAfterChurn, freshSceneCtx,
    emptyElementData, regGet, regSet, animateTimeBlock,
    updateMeshGroupRotation, handleShapeManagement, MAX_SHAPES, initPool,
    mkShape, sharedMaterialId, hgate]

/-- C6 counterexample: a single animate call on element 0 whose gate fires
(clock elapsed 1s) changes the pool observed through element 1, so the
churn state is not scoped to one display surface. -/
theorem pool_not_element_scoped_counterexample :
    observedPoolSize (animateM 0 (some 0) 0 1 demoTwoElements) 1 ≠
      observedPoolSize demoTwoElements 1 := by
  rw [animateM_demo]
  decide

lemma handleShapeManagement_fst_group (cap : Nat) (p : PoolState)
    (g g2 : List Nat) :
    (handleShapeManagement cap p g).1 = (handleShapeManagement cap p g2).1 := by
  unfold handleShapeManagement
  by_cases hlt : p.pool.length < cap
  · rw [if_pos hlt, if_pos hlt]
  · rw [if_neg hlt, if_neg hlt]
    cases p.pool with
    | nil => rfl
    | cons d rest => rfl

/-- C6 amended: the churn state (shape pool, clock, last-action timestamp)
is module-level and shared by every host element, not scoped to one display
surface: any two elements always observe the identical pool, and the pool
and last-action timestamp produced by a frame are the same regardless of
which set-up, attached element's animate loop drove it — so a churn fired
while animating one element is a churn of the pool every element
observes. -/
theorem module_scoped_pool_amended :
    (∀ (s : ModuleState) (a b : Nat),
      observedPoolSize s a = observedPoolSize s b) ∧
    (∀ (a b : Nat) (timestamp : Option ℚ) (nowPerf elapsedTime : ℚ)
        (s : ModuleState) (da db : ElementData) (ca cb : SceneCtx),
      a ∈ s.connected → b ∈ s.connected →
      regGet s.registry a = some da → da.threeContext = some ca →
      regGet s.registry b = some db → db.threeContext = some cb →
      (animateM a timestamp nowPerf elapsedTime s).poolGlobals =
        (animateM b timestamp nowPerf elapsedTime s).poolGlobals ∧
      (animateM a timestamp nowPerf elapsedTime s).lastActionTime =
        (animateM b timestamp nowPerf elapsedTime s).lastActionTime) := by
  constructor
  · intro s a b
    rfl
  · intro a b ts now el s da db ca cb hca hcb hra hcta hrb hctb
    simp only [animateM, hca, hcb, hra, hrb, hcta, hctb, if_true]
    by_cases hg : ACTION_INTERVAL ≤ el - s.lastActionTime
    · simp [hg,
        handleShapeManagement_fst_group MAX_SHAPES s.poolGlobals
          ca.groupMeshIds cb.groupMeshIds]
    · simp [hg]

/-- C6 witness for the amendment: with both demo elements set up and
attached, the frame at clock elapsed time 1 yields the same pool and
last-action state whether element 0 or element 1 drove it. -/
theorem module_scoped_pool_amended_witness :
    (animateM 0 (some 0) 0 1 demoTwoElements).poolGlobals =
      (animateM 1 (some 0) 0 1 demoTwoElements).poolGlobals ∧
    (animateM 0 (some 0) 0 1 demoTwoElements).lastActionTime =
      (animateM 1 (some 0) 0 1 demoTwoElements).lastActionTime :=
  module_scoped_pool_amended.2 0 1 (some 0) 0 1 demoTwoElements
    _ _ _ _ (by decide) (by decide) rfl rfl rfl rfl

/-- Frame-cancel step of cleanupThreeResources (part_003 lines 337-340):
when the entry holds a (nonzero) animation frame handle, cancel it and
forget it. -/
def cancelFrameStep (e : Nat) (s : ModuleState) : ModuleState :=
  match regGet s.registry e with
  | none => s
  | some data =>
    match data.animationFrameId with
    | none => s
    | some fid =>
      { s with
        cancelledFrames := s.cancelledFrames ++ [fid],
        registry := regSet s.registry e { data with animationFrameId := none } }

/-- cleanupEventListeners (part_003 lines 320-326): remove and forget the
stored resize handler when one is present. -/
def cleanupEventListenersM (e : Nat) (s : ModuleState) : ModuleState :=
  match regGet s.registry e with
  | none => s
  | some data =>
    if data.hasResizeHandler then
      let data2 : ElementData := { data with hasResizeHandler := false }
      { s with registry := regSet s.registry e data2 }
    else s

/-- Scene-resource disposal in cleanupThreeResources (part_003 lines
345-377): traverse the scene and dispose every mesh geometry and material
(all scene meshes are this element's meshGroup children; all reference the
shared material and none has a texture map); composer, bloom-pass and
renderer disposal and scene.clear touch nothing in the modelled state. -/
def disposeSceneStep (e : Nat) (s : ModuleState) : ModuleState :=
  match regGet s.registry e with
  | none => s
  | some data =>
    match data.threeContext with
    | none => s
    | some ctx =>
      { s with poolGlobals := { s.poolGlobals with
          disposedGeoms := s.poolGlobals.disposedGeoms ++ ctx.groupMeshIds,
          disposedMats := s.poolGlobals.disposedMats ++
            ctx.groupMeshIds.map (fun _ => sharedMaterialId) } }

/-- cleanupThreeResources (part_003 lines 332-381).  The result is an
Except to model a thrown TypeError: the code guards every dereference with
a null check, so every path returns ok, and the registry entry is dropped
at the end. -/
def cleanupThreeResourcesM (e : Nat) (s : ModuleState) :
    Except String ModuleState :=
  match regGet s.registry e with
  | none => Except.ok s
  | some _ =>
    let s1 := cancelFrameStep e s
    let s2 := cleanupEventListenersM e s1
    let s3 := disposeSceneStep e s2
    Except.ok { s3 with registry := regDel s3.registry e }

/-- setupThreeScene (part_003 lines 160-198) restricted to the modelled
state: store a fresh context (new meshGroup: zero rotation, no children)
over whatever registry entry exists, keeping its other fields.  Canvas,
renderer, camera and composer creation and the handleResize call touch no
modelled field, and the module churn globals are untouched. -/
def setupThreeSceneM (e : Nat) (s : ModuleState) : ModuleState :=
  let currentData := match regGet s.registry e with
    | some d => d
    | none => emptyElementData
  let newData : ElementData := { currentData with threeContext := some freshSceneCtx }
  { s with registry := regSet s.registry e newData }

/-- C8: teardown never throws.  With no registry entry (before any setup)
it returns the state unchanged; every call returns ok; and after a
successful call the entry is gone, so a second consecutive invocation finds
no instance data and is a no-op. -/
theorem cleanup_never_throws :
    (∀ (s : ModuleState) (e : Nat),
      ∃ s2, cleanupThreeResourcesM e s = Except.ok s2) ∧
    (∀ (s : ModuleState) (e : Nat), regGet s.registry e = none →
      cleanupThreeResourcesM e s = Except.ok s) ∧
    (∀ (s : ModuleState) (e : Nat) (s2 : ModuleState),
      cleanupThreeResourcesM e s = Except.ok s2 →
      regGet s2.registry e = none ∧
        cleanupThreeResourcesM e s2 = Except.ok s2) := by
  refine ⟨fun s e => ?_, fun s e h => ?_, fun s e s2 h => ?_⟩
  · unfold cleanupThreeResourcesM
    cases regGet s.registry e with
    | none => exact ⟨s, rfl⟩
    | some data => exact ⟨_, rfl⟩
  · unfold cleanupThreeResourcesM
    rw [h]
  · unfold cleanupThreeResourcesM at h
    cases hr : regGet s.registry e with
    | none =>
      rw [hr] at h
      have hs : s = s2 := Except.ok.inj h
      subst hs
      exact ⟨hr, by unfold cleanupThreeResourcesM; rw [hr]⟩
    | some data =>
      rw [hr] at h
      have hs : s2 = { disposeSceneStep e (cleanupEventListenersM e (cancelFrameStep e s)) with
          registry := regDel (disposeSceneStep e (cleanupEventListenersM e
            (cancelFrameStep e s))).registry e } := (Except.ok.inj h).symm
      have hn : regGet s2.registry e = none := by
        rw [hs]
        exact regGet_regDel_self _ e
      refine ⟨hn, ?_⟩
      unfold cleanupThreeResourcesM
      rw [hn]

/-- The state produced by tearing element 0 down from demoTwoElements. -/
def cleanedDemo : ModuleState :=
  { poolGlobals := initPool, lastActionTime := 0, clockStartTime := 0,
    registry := [(1, { emptyElementData with threeContext := some freshSceneCtx })],
    connected := [0, 1], cancelledFrames := [], nextFrameId := 1 }

/-- C8 witness: teardown of a never-registered element is a no-op, and
teardown is a no-op again on the state a successful teardown produced. -/
theorem cleanup_never_throws_witness :
    cleanupThreeResourcesM 5 demoTwoElements = Except.ok demoTwoElements ∧
    (regGet cleanedDemo.registry 0 = none ∧
      cleanupThreeResourcesM 0 cleanedDemo = Except.ok cleanedDemo) :=
  ⟨cleanup_never_throws.2.1 demoTwoElements 5 rfl,
   cleanup_never_throws.2.2 demoTwoElements 0 cleanedDemo (by rfl)⟩

lemma cancelFrameStep_preserves (e : Nat) (s : ModuleState) :
    (cancelFrameStep e s).poolGlobals = s.poolGlobals ∧
    (cancelFrameStep e s).lastActionTime = s.lastActionTime ∧
    (cancelFrameStep e s).clockStartTime = s.clockStartTime := by
  unfold cancelFrameStep
  split
  · exact ⟨rfl, rfl, rfl⟩
  · split
    · exact ⟨rfl, rfl, rfl⟩
    · exact ⟨rfl, rfl, rfl⟩

lemma cleanupEventListenersM_preserves (e : Nat) (s : ModuleState) :
    (cleanupEventListenersM e s).poolGlobals = s.poolGlobals ∧
    (cleanupEventListenersM e s).lastActionTime = s.lastActionTime ∧
    (cleanupEventListenersM e s).clockStartTime = s.clockStartTime := by
  unfold cleanupEventListenersM
  split
  · exact ⟨rfl, rfl, rfl⟩
  · split
    · exact ⟨rfl, rfl, rfl⟩
    · exact ⟨rfl, rfl, rfl⟩

lemma disposeSceneStep_preserves (e : Nat) (s : ModuleState) :
    (disposeSceneStep e s).poolGlobals.pool = s.poolGlobals.pool ∧
    (disposeSceneStep e s).poolGlobals.nextId = s.poolGlobals.nextId ∧
    (disposeSceneStep e s).lastActionTime = s.lastActionTime ∧
    (disposeSceneStep e s).clockStartTime = s.clockStartTime := by
  unfold disposeSceneStep
  split
  · exact ⟨rfl, rfl, rfl, rfl⟩
  · split
    · exact ⟨rfl, rfl, rfl, rfl⟩
    · exact ⟨rfl, rfl, rfl, rfl⟩

lemma setupThreeSceneM_poolGlobals (e : Nat) (s : ModuleState) :
    (setupThreeSceneM e s).poolGlobals = s.poolGlobals := rfl

/-- C10: teardown does not reset the churn state.  Whenever teardown
returns ok, the module-level pool array, the shape counter, the clock and
the last-action timestamp are unchanged; only the registry entry is gone;
a subsequent setup on any element still sees the old pool.  Concretely,
churn once on element 0, tear it down, set it up again: the pool still
holds the one stale (already-disposed) shape instead of being empty. -/
theorem cleanup_preserves_churn_state :
    (∀ (s : ModuleState) (e : Nat) (s2 : ModuleState),
      cleanupThreeResourcesM e s = Except.ok s2 →
      s2.poolGlobals.pool = s.poolGlobals.pool ∧
      s2.poolGlobals.nextId = s.poolGlobals.nextId ∧
      s2.lastActionTime = s.lastActionTime ∧
      s2.clockStartTime = s.clockStartTime ∧
      regGet s2.registry e = none ∧
      ∀ e2 : Nat, (setupThreeSceneM e2 s2).poolGlobals.pool =
        s.poolGlobals.pool) ∧
    (cleanupThreeResourcesM 0 demoAfterChurn).map
        (fun s2 => (setupThreeSceneM 0 s2).poolGlobals.pool.length) =
      Except.ok 1 := by
  constructor
  · intro s e s2 h
    unfold cleanupThreeResourcesM at h
    cases hr : regGet s.registry e with
    | none =>
      rw [hr] at h
      have hs : s = s2 := Except.ok.inj h
      subst hs
      exact ⟨rfl, rfl, rfl, rfl, hr,
        fun e2 => congrArg PoolState.pool (setupThreeSceneM_poolGlobals e2 s)⟩
    | some data =>
      rw [hr] at h
      have hs : s2 = { disposeSceneStep e (cleanupEventListenersM e
          (cancelFrameStep e s)) with
          registry := regDel (disposeSceneStep e (cleanupEventListenersM e
            (cancelFrameStep e s))).registry e } := (Except.ok.inj h).symm
      obtain ⟨c1, c2, c3⟩ := cancelFrameStep_preserves e s
      obtain ⟨l1, l2, l3⟩ :=
        cleanupEventListenersM_preserves e (cancelFrameStep e s)
      obtain ⟨d1, d2, d3, d4⟩ :=
        disposeSceneStep_preserves e (cleanupEventListenersM e
          (cancelFrameStep e s))
      subst hs
      refine ⟨?_, ?_, ?_, ?_, ?_, ?_⟩
      · show (disposeSceneStep e (cleanupEventListenersM e
          (cancelFrameStep e s))).poolGlobals.pool = s.poolGlobals.pool
        rw [d1, l1, c1]
      · show (disposeSceneStep e (cleanupEventListenersM e
          (cancelFrameStep e s))).poolGlobals.nextId = s.poolGlobals.nextId
        rw [d2, l1, c1]
      · show (disposeSceneStep e (cleanupEventListenersM e
          (cancelFrameStep e s))).lastActionTime = s.lastActionTime
        rw [d3, l2, c2]
      · show (disposeSceneStep e (cleanupEventListenersM e
          (cancelFrameStep e s))).clockStartTime = s.clockStartTime
        rw [d4, l3, c3]
      · show regGet (regDel (disposeSceneStep e (cleanupEventListenersM e
          (cancelFrameStep e s))).registry e) e = none
        exact regGet_regDel_self _ e
      · intro e2
        show (disposeSceneStep e (cleanupEventListenersM e
          (cancelFrameStep e s))).poolGlobals.pool = s.poolGlobals.pool
        rw [d1, l1, c1]
  · rfl

/-- C10 witness: concrete teardown of element 0 from the two-element demo
state, followed by a setup on another element. -/
theorem cleanup_preserves_churn_state_witness :
    cleanedDemo.poolGlobals.pool = demoTwoElements.poolGlobals.pool ∧
    cleanedDemo.poolGlobals.nextId = demoTwoElements.poolGlobals.nextId ∧
    cleanedDemo.lastActionTime = demoTwoElements.lastActionTime ∧
    cleanedDemo.clockStartTime = demoTwoElements.clockStartTime ∧
    regGet cleanedDemo.registry 0 = none ∧
    (setupThreeSceneM 7 cleanedDemo).poolGlobals.pool =
      demoTwoElements.poolGlobals.pool := by
  have h := cleanup_preserves_churn_state.1 demoTwoElements 0 cleanedDemo (by rfl)
  exact ⟨h.1, h.2.1, h.2.2.1, h.2.2.2.1, h.2.2.2.2.1, h.2.2.2.2.2 7⟩
